import Mathlib

/-!
Verification of the warehouse free-space registry (src/main.py and src/Main.py).

The registry state is the pair of in-memory dicts `locations` (keyed by
location id) and `reservations` (keyed by reservation id).  Python dicts are
insertion ordered, so each dict is modelled as a list of entries in insertion
order, looked up by key.  Statuses are the plain strings the source stores.
Each endpoint either returns normally (`Except.ok` with the new state) or
raises an `HTTPException` (`Except.error`, carrying the error and the state at
the moment of the raise, so that "no mutation before failing" is expressible).
-/

/-- The five status strings accepted by the `/locations` status filter regex. -/
def allStatuses : List String := ["FREE", "OCCUPIED", "RESERVED", "BLOCKED", "MAINT"]

/-- One row of the `locations` dict of src/main.py: the record produced by
`load_locations` (string fields kept as strings, numeric fields parsed to
integers, positional coordinates optional). -/
structure Location where
  id : String
  area_id : String
  area_type : String
  aisle : Option Int
  bay : Option Int
  level : Option Int
  position : Option Int
  length_mm : Int
  width_mm : Int
  height_mm : Int
  max_weight_kg : Int
  status : String
  group_id : String
deriving Repr, DecidableEq

/-- The `Reservation` pydantic model of src/main.py (request body of
POST /reserve, also the value stored in the `reservations` dict). -/
structure Reservation where
  id : String
  location_ids : List String
  ref : Option String
  from_ts : Option String
  until_ts : Option String
  status : String
deriving Repr, DecidableEq

/-- The mutable process state of src/main.py: the `locations` dict and the
`reservations` dict, each as an insertion-ordered association list. -/
structure State where
  locations : List Location
  reservations : List (String × Reservation)
deriving Repr, DecidableEq

/-- An `HTTPException` of src/main.py: status 404 (`notFound`) or 409
(`conflict`), with its detail string. -/
inductive ApiError where
  | notFound (detail : String)
  | conflict (detail : String)
deriving Repr, DecidableEq

/-- Dict lookup `locations[lid]` / membership `lid in locations`:  first
entry whose `id` field is the key (ids are unique in a dict). -/
def lookupLoc : List Location → String → Option Location
  | [], _ => none
  | l :: rest, lid => if l.id = lid then some l else lookupLoc rest lid

/-- Dict lookup `reservations[k]`. -/
def lookupRes : List (String × Reservation) → String → Option Reservation
  | [], _ => none
  | p :: rest, k => if p.1 = k then some p.2 else lookupRes rest k

/-- The record with its `status` field overwritten:
`locations[lid]["status"] = s` at the level of one record. -/
def withStatus (l : Location) (s : String) : Location := { l with status := s }

/-- The in-place dict mutation `locations[lid]["status"] = s`: the entry keyed
`lid` gets status `s`, every other entry (and the insertion order) is kept. -/
def setStatus (c : List Location) (lid s : String) : List Location :=
  c.map fun l => if l.id = lid then withStatus l s else l

/-- The dict assignment `reservations[k] = v`: overwrite in place if the key
exists (keeping its position), else append. -/
def insertRes (rs : List (String × Reservation)) (k : String) (v : Reservation) :
    List (String × Reservation) :=
  if rs.any fun p => p.1 = k then rs.map fun p => if p.1 = k then (k, v) else p
  else rs ++ [(k, v)]

/-- The validation loop of `reserve` (src/main.py lines 182-186): for each id
in order, raise 404 if it is not in the catalogue, then raise 409 if its
status is not FREE.  The loop mutates nothing, so the state carried by an
error is the input state. -/
def reserveCheck (st : State) : List String → Except (ApiError × State) Unit
  | [] => Except.ok ()
  | lid :: rest =>
    match lookupLoc st.locations lid with
    | none => Except.error (ApiError.notFound ("Location " ++ lid ++ " not found"), st)
    | some l =>
      if l.status ≠ "FREE" then
        Except.error (ApiError.conflict ("Location " ++ lid ++ " not FREE"), st)
      else reserveCheck st rest

/-- POST /reserve (src/main.py lines 180-190): validate every id, then set
every referenced location to RESERVED and store the reservation under its id. -/
def reserve (st : State) (res : Reservation) : Except (ApiError × State) State :=
  match reserveCheck st res.location_ids with
  | Except.error e => Except.error e
  | Except.ok _ =>
    Except.ok
      { locations := res.location_ids.foldl (fun acc lid => setStatus acc lid "RESERVED") st.locations
        reservations := insertRes st.reservations res.id res }

/-- POST /occupy/{location_id} (src/main.py lines 192-199).  The `pallet_ref`
query parameter is accepted and ignored by the source, so it is omitted. -/
def occupy (st : State) (lid : String) : Except (ApiError × State) State :=
  match lookupLoc st.locations lid with
  | none => Except.error (ApiError.notFound "Location not found", st)
  | some l =>
    if ¬(l.status = "FREE" ∨ l.status = "RESERVED") then
      Except.error (ApiError.conflict "Location not FREE/RESERVED", st)
    else Except.ok { st with locations := setStatus st.locations lid "OCCUPIED" }

/-- POST /free/{location_id} (src/main.py lines 201-206): unconditional
status reset to FREE for an existing id. -/
def free (st : State) (lid : String) : Except (ApiError × State) State :=
  match lookupLoc st.locations lid with
  | none => Except.error (ApiError.notFound "Location not found", st)
  | some _ => Except.ok { st with locations := setStatus st.locations lid "FREE" }

/-- POST /move (src/main.py lines 208-218): both ids must exist, the source
must be OCCUPIED, the destination FREE or RESERVED; then source becomes FREE
and destination OCCUPIED. -/
def move (st : State) (fromId toId : String) : Except (ApiError × State) State :=
  match lookupLoc st.locations fromId, lookupLoc st.locations toId with
  | none, _ => Except.error (ApiError.notFound "Location not found", st)
  | _, none => Except.error (ApiError.notFound "Location not found", st)
  | some lf, some lt =>
    if lf.status ≠ "OCCUPIED" then
      Except.error (ApiError.conflict "From location not OCCUPIED", st)
    else if ¬(lt.status = "FREE" ∨ lt.status = "RESERVED") then
      Except.error (ApiError.conflict "To location not FREE/RESERVED", st)
    else
      Except.ok
        { st with locations := setStatus (setStatus st.locations fromId "FREE") toId "OCCUPIED" }

/-- The optional query parameters of GET /locations (src/main.py lines
155-164).  `none` is an absent parameter. -/
structure QueryFilters where
  status : Option String
  area_type : Option String
  area_id : Option String
  min_l : Option Int
  min_w : Option Int
  min_h : Option Int
  min_weight : Option Int
  group_id : Option String
deriving Repr, DecidableEq

/-- One guard `if f and loc[field] != f: continue` of the scan: the item
passes when the filter is Python-falsy (absent or the empty string) or the
field equals the filter value. -/
def passExact (f : Option String) (v : String) : Bool :=
  match f with
  | none => true
  | some s => if s = "" then true else decide (v = s)

/-- One guard `if m and loc[field] < m: continue`: the item passes when the
filter is Python-falsy (absent or 0) or the field is at least the threshold. -/
def passMin (f : Option Int) (v : Int) : Bool :=
  match f with
  | none => true
  | some n => if n = 0 then true else decide (n ≤ v)

/-- The conjunction of the eight guards of the scan loop of `get_locations`
(src/main.py lines 168-175), in source order. -/
def matchesFilters (f : QueryFilters) (l : Location) : Bool :=
  passExact f.status l.status && passExact f.area_type l.area_type &&
    passExact f.area_id l.area_id && passExact f.group_id l.group_id &&
    passMin f.min_l l.length_mm && passMin f.min_w l.width_mm &&
    passMin f.min_h l.height_mm && passMin f.min_weight l.max_weight_kg

/-- The scan loop of `get_locations` (src/main.py lines 166-177): walk the
catalogue in insertion order, append every item passing the guards, and break
as soon as `len(results) >= limit` after an append. -/
def scanLocs (f : QueryFilters) (limit : Int) : List Location → List Location → List Location
  | acc, [] => acc
  | acc, l :: rest =>
    if matchesFilters f l then
      if limit ≤ ((acc ++ [l]).length : Int) then acc ++ [l]
      else scanLocs f limit (acc ++ [l]) rest
    else scanLocs f limit acc rest

/-- GET /locations (src/main.py lines 154-178): the returned `count` and
`items`.  `count` is `len(results)` in the source. -/
def get_locations (st : State) (f : QueryFilters) (limit : Int) : Int × List Location :=
  (((scanLocs f limit [] st.locations).length : Int), scanLocs f limit [] st.locations)

/-- One inbound request to the mutating or querying endpoints. -/
inductive Op where
  | reserveOp (res : Reservation)
  | occupyOp (lid : String)
  | freeOp (lid : String)
  | moveOp (fromId toId : String)
  | queryOp (f : QueryFilters) (limit : Int)
deriving Repr

/-- The state after serving one request: the returned state on success, the
state at the raise on failure; GET /locations never mutates. -/
def applyOp (st : State) : Op → State
  | Op.reserveOp res =>
    match reserve st res with
    | Except.ok st2 => st2
    | Except.error (_, st2) => st2
  | Op.occupyOp lid =>
    match occupy st lid with
    | Except.ok st2 => st2
    | Except.error (_, st2) => st2
  | Op.freeOp lid =>
    match free st lid with
    | Except.ok st2 => st2
    | Except.error (_, st2) => st2
  | Op.moveOp a b =>
    match move st a b with
    | Except.ok st2 => st2
    | Except.error (_, st2) => st2
  | Op.queryOp _ _ => st

/-- A concrete FLEX location record (shape of the FLEX-01 rows the generator
produces) used as test input for the endpoint theorems. -/
def mkLoc (lid s : String) : Location :=
  { id := lid, area_id := "FLEX-01", area_type := "FLEX", aisle := none, bay := none,
    level := none, position := none, length_mm := 1000, width_mm := 1000,
    height_mm := 2000, max_weight_kg := 2000, status := s, group_id := "" }

/-- A concrete reservation request body with only the required fields set. -/
def mkRes (rid : String) (ids : List String) : Reservation :=
  { id := rid, location_ids := ids, ref := none, from_ts := none, until_ts := none,
    status := "ACTIVE" }

/-- GET /locations with every optional query parameter absent. -/
def noFilters : QueryFilters :=
  { status := none, area_type := none, area_id := none, min_l := none, min_w := none,
    min_h := none, min_weight := none, group_id := none }

/-- The statuses the endpoints write: reserve writes RESERVED, occupy and
move write OCCUPIED, free and move write FREE.  BLOCKED and MAINT are never
assigned by any endpoint. -/
def writableStatuses : List String := ["FREE", "OCCUPIED", "RESERVED"]

/-- Catalogue `c2` differs from `c` at most by per-id status overwrites drawn
from `writableStatuses`: every id resolves to its old record, possibly with
its status replaced by a writable status. -/
def StatusWriteOnly (c c2 : List Location) : Prop :=
  ∀ lid, lookupLoc c2 lid = lookupLoc c lid ∨
    ∃ t ∈ writableStatuses,
      lookupLoc c2 lid = (lookupLoc c lid).map (fun l => withStatus l t)

/-! ### Basic lemmas about the state primitives -/

theorem withStatus_id (l : Location) (s : String) : (withStatus l s).id = l.id := rfl

theorem withStatus_status (l : Location) (s : String) : (withStatus l s).status = s := rfl

theorem withStatus_overwrite (l : Location) (s t : String) :
    withStatus (withStatus l s) t = withStatus l t := by
  cases l; rfl

theorem lookup_setStatus_self (c : List Location) (k s : String) :
    lookupLoc (setStatus c k s) k = (lookupLoc c k).map (fun l => withStatus l s) := by
  induction c with
  | nil => rfl
  | cons l rest ih =>
    by_cases h1 : l.id = k
    · simp [setStatus, lookupLoc, h1, withStatus_id]
    · simp only [setStatus, List.map_cons, lookupLoc, if_neg h1]
      simpa [setStatus] using ih

theorem lookup_setStatus_other (c : List Location) (k s lid : String) (h : lid ≠ k) :
    lookupLoc (setStatus c k s) lid = lookupLoc c lid := by
  induction c with
  | nil => rfl
  | cons l rest ih =>
    by_cases h1 : l.id = k
    · have h2 : ¬ l.id = lid := fun he => h (he ▸ h1)
      have h3 : ¬ (withStatus l s).id = lid := by rw [withStatus_id]; exact h2
      simp only [setStatus, List.map_cons, if_pos h1, lookupLoc, if_neg h3, if_neg h2]
      simpa [setStatus] using ih
    · by_cases h2 : l.id = lid
      · simp [setStatus, lookupLoc, h1, h2, h]
      · simp only [setStatus, List.map_cons, if_neg h1, lookupLoc, if_neg h2]
        simpa [setStatus] using ih

theorem setStatus_idem (c : List Location) (k s : String) :
    setStatus (setStatus c k s) k s = setStatus c k s := by
  induction c with
  | nil => rfl
  | cons l rest ih =>
    by_cases h : l.id = k
    · simp [setStatus, h, withStatus_id, withStatus_overwrite] at ih ⊢
      exact ih
    · simp [setStatus, h] at ih ⊢
      exact ih

theorem lookupRes_insertRes_self (rs : List (String × Reservation)) (k : String)
    (v : Reservation) : lookupRes (insertRes rs k v) k = some v := by
  induction rs with
  | nil => simp [insertRes, lookupRes]
  | cons p rest ih =>
    by_cases h : p.1 = k
    · simp [insertRes, List.any_cons, h, lookupRes]
    · by_cases h2 : rest.any fun q => q.1 = k
      · simp only [insertRes, List.any_cons, h, decide_eq_true_eq] at ih ⊢
        simp only [h2, Bool.false_or, decide_False, if_pos, List.map_cons, if_neg h]
        simp only [h2, if_pos] at ih
        simpa [lookupRes, h] using ih
      · simp only [insertRes, List.any_cons, decide_eq_true_eq, h, decide_False,
          Bool.false_or] at ih ⊢
        simp only [h2, if_neg, Bool.false_eq_true] at ih ⊢
        simpa [lookupRes, h] using ih

theorem map_withStatus_twice (o : Option Location) (s : String) :
    (o.map (fun l => withStatus l s)).map (fun l => withStatus l s) =
      o.map (fun l => withStatus l s) := by
  cases o with
  | none => rfl
  | some l => simp [withStatus_overwrite]

theorem lookup_foldl_setStatus (ids : List String) (c : List Location) (lid : String) :
    lookupLoc (ids.foldl (fun acc i => setStatus acc i "RESERVED") c) lid =
      if lid ∈ ids then (lookupLoc c lid).map (fun l => withStatus l "RESERVED")
      else lookupLoc c lid := by
  induction ids generalizing c with
  | nil => simp
  | cons k t ih =>
    simp only [List.foldl_cons]
    rw [ih (setStatus c k "RESERVED")]
    by_cases hk : lid = k
    · subst hk
      by_cases ht : lid ∈ t
      · simp [ht, lookup_setStatus_self, Option.map_map]
        cases lookupLoc c lid <;> simp [withStatus_overwrite]
      · simp [ht, lookup_setStatus_self]
    · by_cases ht : lid ∈ t
      · simp [ht, hk, lookup_setStatus_other _ _ _ _ hk]
      · simp [ht, hk, lookup_setStatus_other _ _ _ _ hk]

theorem reserveCheck_ok (st : State) (ids : List String)
    (h : ∀ lid ∈ ids, ∃ l, lookupLoc st.locations lid = some l ∧ l.status = "FREE") :
    reserveCheck st ids = Except.ok () := by
  induction ids with
  | nil => rfl
  | cons k t ih =>
    obtain ⟨l, hl, hs⟩ := h k (List.mem_cons_self k t)
    have ht := ih fun lid hm => h lid (List.mem_cons_of_mem _ hm)
    simp [reserveCheck, hl, hs, ht]

theorem reserveCheck_error (st : State) (ids : List String)
    (h : ∃ lid ∈ ids, lookupLoc st.locations lid = none ∨
      ∃ l, lookupLoc st.locations lid = some l ∧ l.status ≠ "FREE") :
    ∃ e : ApiError, reserveCheck st ids = Except.error (e, st) := by
  induction ids with
  | nil => simp at h
  | cons k t ih =>
    cases hlk : lookupLoc st.locations k with
    | none =>
      exact ⟨ApiError.notFound ("Location " ++ k ++ " not found"), by simp [reserveCheck, hlk]⟩
    | some l =>
      by_cases hs : l.status = "FREE"
      · obtain ⟨lid, hm, hbad⟩ := h
        rcases List.mem_cons.mp hm with rfl | hmt
        · rcases hbad with hnone | ⟨l2, hl2, hs2⟩
          · rw [hlk] at hnone; cases hnone
          · rw [hlk] at hl2
            injection hl2 with h3
            subst h3
            exact absurd hs hs2
        · obtain ⟨e, he⟩ := ih ⟨lid, hmt, hbad⟩
          exact ⟨e, by simp [reserveCheck, hlk, hs, he]⟩
      · exact ⟨ApiError.conflict ("Location " ++ k ++ " not FREE"), by simp [reserveCheck, hlk, hs]⟩

/-! ### Claim theorems -/

/-- Claim C1: `reserve` is all-or-nothing.  If any referenced id is missing
from the catalogue or any referenced location is not FREE, the request fails
with a 404 or 409 error, and the state carried at the raise — and hence the
state after the request — is exactly the input state: no location status is
changed and no reservation is stored under the given reservation id. -/
theorem reserve_all_or_nothing (st : State) (res : Reservation)
    (h : ∃ lid ∈ res.location_ids,
      lookupLoc st.locations lid = none ∨
        ∃ l, lookupLoc st.locations lid = some l ∧ l.status ≠ "FREE") :
    ∃ e : ApiError, reserve st res = Except.error (e, st) ∧
      applyOp st (Op.reserveOp res) = st := by
  obtain ⟨e, he⟩ := reserveCheck_error st res.location_ids h
  refine ⟨e, ?_, ?_⟩
  · simp [reserve, he]
  · simp [applyOp, reserve, he]

theorem reserve_all_or_nothing_witness :
    ∃ e : ApiError,
      reserve ⟨[mkLoc "L1" "OCCUPIED"], []⟩ (mkRes "R1" ["L1"]) =
        Except.error (e, ⟨[mkLoc "L1" "OCCUPIED"], []⟩) ∧
      applyOp ⟨[mkLoc "L1" "OCCUPIED"], []⟩ (Op.reserveOp (mkRes "R1" ["L1"])) =
        ⟨[mkLoc "L1" "OCCUPIED"], []⟩ :=
  reserve_all_or_nothing _ _
    ⟨"L1", by simp [mkRes],
      Or.inr ⟨mkLoc "L1" "OCCUPIED", rfl, by simp [mkLoc]⟩⟩

/-- Claim C2: when every id in the request exists and is FREE, `reserve`
succeeds, every referenced location ends with status RESERVED, and the
reservation is stored under its id — the stored record is the request itself,
so its `location_ids` is exactly the given ordered list, and the store
overwrites any previous reservation with the same id. -/
theorem reserve_success (st : State) (res : Reservation)
    (h : ∀ lid ∈ res.location_ids,
      ∃ l, lookupLoc st.locations lid = some l ∧ l.status = "FREE") :
    ∃ st2, reserve st res = Except.ok st2 ∧
      (∀ lid ∈ res.location_ids, ∃ l, lookupLoc st2.locations lid = some l ∧
        l.status = "RESERVED") ∧
      lookupRes st2.reservations res.id = some res := by
  have hc := reserveCheck_ok st res.location_ids h
  have hr : reserve st res = Except.ok
      { locations := res.location_ids.foldl (fun acc lid => setStatus acc lid "RESERVED")
          st.locations
        reservations := insertRes st.reservations res.id res } := by
    simp [reserve, hc]
  refine ⟨_, hr, ?_, ?_⟩
  · intro lid hm
    obtain ⟨l, hl, hsl⟩ := h lid hm
    refine ⟨withStatus l "RESERVED", ?_, rfl⟩
    show lookupLoc (res.location_ids.foldl (fun acc i => setStatus acc i "RESERVED")
      st.locations) lid = _
    rw [lookup_foldl_setStatus, if_pos hm, hl]
    rfl
  · exact lookupRes_insertRes_self _ _ _

theorem reserve_success_witness :
    ∃ st2,
      reserve ⟨[mkLoc "L1" "FREE", mkLoc "L2" "FREE"], []⟩ (mkRes "R1" ["L1", "L2"]) =
        Except.ok st2 ∧
      (∀ lid ∈ (mkRes "R1" ["L1", "L2"]).location_ids,
        ∃ l, lookupLoc st2.locations lid = some l ∧ l.status = "RESERVED") ∧
      lookupRes st2.reservations (mkRes "R1" ["L1", "L2"]).id =
        some (mkRes "R1" ["L1", "L2"]) := by
  refine reserve_success _ _ ?_
  intro lid hm
  simp only [mkRes, List.mem_cons, List.not_mem_nil, or_false] at hm
  rcases hm with rfl | rfl
  · exact ⟨mkLoc "L1" "FREE", rfl, rfl⟩
  · exact ⟨mkLoc "L2" "FREE", rfl, rfl⟩

theorem reserveCheck_append_good (st : State) (pre rest : List String)
    (hpre : ∀ p ∈ pre, ∃ l, lookupLoc st.locations p = some l ∧ l.status = "FREE") :
    reserveCheck st (pre ++ rest) = reserveCheck st rest := by
  induction pre with
  | nil => rfl
  | cons k t ih =>
    obtain ⟨l, hl, hs⟩ := hpre k (List.mem_cons_self k t)
    have ht := ih fun p hp => hpre p (List.mem_cons_of_mem _ hp)
    simp [reserveCheck, hl, hs, ht]

/-- Claim C3 counterexample: the catalogue holds only L1 with status OCCUPIED,
and the request references [L1, L2] where L2 is missing.  The claim predicts
NotFound for L2 (missing-id check first over the whole list); the code raises
Conflict for L1, because it checks existence and FREE status per id in one
pass over the list. -/
theorem reserve_check_order_counterexample :
    lookupLoc [mkLoc "L1" "OCCUPIED"] "L2" = none ∧
    lookupLoc [mkLoc "L1" "OCCUPIED"] "L1" = some (mkLoc "L1" "OCCUPIED") ∧
    (mkLoc "L1" "OCCUPIED").status ≠ "FREE" ∧
    reserve ⟨[mkLoc "L1" "OCCUPIED"], []⟩ (mkRes "RX" ["L1", "L2"]) =
      Except.error (ApiError.conflict "Location L1 not FREE",
        ⟨[mkLoc "L1" "OCCUPIED"], []⟩) := by
  refine ⟨rfl, rfl, ?_, rfl⟩
  simp [mkLoc]

/-- Claim C3 (amended): `reserve` validates the ids in list order, and for
each id checks existence and then FREE status before moving to the next id;
the first id in list order violating either check determines the error — 404
naming that id when it is missing, 409 naming it when it is not FREE.  In
particular, when an earlier id is non-FREE and a later id is missing, the
result is Conflict for the earlier id, not NotFound for the missing one. -/
theorem reserve_first_violation (st : State) (res : Reservation)
    (pre post : List String) (lid : String)
    (hsplit : res.location_ids = pre ++ lid :: post)
    (hpre : ∀ p ∈ pre, ∃ l, lookupLoc st.locations p = some l ∧ l.status = "FREE") :
    (lookupLoc st.locations lid = none →
      reserve st res = Except.error
        (ApiError.notFound ("Location " ++ lid ++ " not found"), st)) ∧
    (∀ l, lookupLoc st.locations lid = some l → l.status ≠ "FREE" →
      reserve st res = Except.error
        (ApiError.conflict ("Location " ++ lid ++ " not FREE"), st)) := by
  have hck := reserveCheck_append_good st pre (lid :: post) hpre
  constructor
  · intro hnone
    have : reserveCheck st res.location_ids =
        Except.error (ApiError.notFound ("Location " ++ lid ++ " not found"), st) := by
      rw [hsplit, hck]
      simp [reserveCheck, hnone]
    simp [reserve, this]
  · intro l hl hs
    have : reserveCheck st res.location_ids =
        Except.error (ApiError.conflict ("Location " ++ lid ++ " not FREE"), st) := by
      rw [hsplit, hck]
      simp [reserveCheck, hl, hs]
    simp [reserve, this]

theorem reserve_first_violation_witness :
    reserve ⟨[mkLoc "L1" "FREE", mkLoc "L3" "OCCUPIED"], []⟩ (mkRes "RY" ["L1", "L3"]) =
      Except.error (ApiError.conflict "Location L3 not FREE",
        ⟨[mkLoc "L1" "FREE", mkLoc "L3" "OCCUPIED"], []⟩) :=
  (reserve_first_violation ⟨[mkLoc "L1" "FREE", mkLoc "L3" "OCCUPIED"], []⟩
    (mkRes "RY" ["L1", "L3"]) ["L1"] [] "L3" rfl
    (by
      intro p hp
      simp only [List.mem_singleton] at hp
      subst hp
      exact ⟨mkLoc "L1" "FREE", rfl, rfl⟩)).2
    (mkLoc "L3" "OCCUPIED") rfl (by simp [mkLoc])

theorem move_error_state (st : State) (a b : String) (e : ApiError) (st2 : State)
    (h : move st a b = Except.error (e, st2)) : st2 = st := by
  unfold move at h
  split at h
  · exact (congrArg Prod.snd (Except.error.inj h)).symm
  · exact (congrArg Prod.snd (Except.error.inj h)).symm
  · split at h
    · exact (congrArg Prod.snd (Except.error.inj h)).symm
    · split at h
      · exact (congrArg Prod.snd (Except.error.inj h)).symm
      · simp at h

/-- Claim C4: `move(A, B)` succeeds exactly when both ids exist (else a 404),
A is OCCUPIED (else a 409) and B is FREE or RESERVED (else a 409); on success
A ends FREE and B ends OCCUPIED; on any failure the carried state is the
input state, so neither status changes. -/
theorem move_spec (st : State) (a b : String) :
    ((lookupLoc st.locations a = none ∨ lookupLoc st.locations b = none) →
      move st a b = Except.error (ApiError.notFound "Location not found", st)) ∧
    (∀ la lb, lookupLoc st.locations a = some la → lookupLoc st.locations b = some lb →
      (la.status ≠ "OCCUPIED" →
        move st a b = Except.error (ApiError.conflict "From location not OCCUPIED", st)) ∧
      (la.status = "OCCUPIED" → ¬(lb.status = "FREE" ∨ lb.status = "RESERVED") →
        move st a b = Except.error (ApiError.conflict "To location not FREE/RESERVED", st)) ∧
      (la.status = "OCCUPIED" → (lb.status = "FREE" ∨ lb.status = "RESERVED") →
        ∃ st2, move st a b = Except.ok st2 ∧
          lookupLoc st2.locations a = some (withStatus la "FREE") ∧
          lookupLoc st2.locations b = some (withStatus lb "OCCUPIED"))) ∧
    (∀ e st2, move st a b = Except.error (e, st2) → st2 = st) := by
  refine ⟨?_, ?_, fun e st2 h => move_error_state st a b e st2 h⟩
  · intro h
    rcases h with h | h
    · simp [move, h]
    · cases h1 : lookupLoc st.locations a with
      | none => simp [move, h1]
      | some la => simp [move, h1, h]
  · intro la lb hla hlb
    refine ⟨?_, ?_, ?_⟩
    · intro hs
      simp [move, hla, hlb, hs]
    · intro hs hbad
      simp [move, hla, hlb, hs, hbad]
    · intro hs hgood
      by_cases hab : a = b
      · subst hab
        rw [hla] at hlb
        injection hlb with he
        subst he
        rcases hgood with hg | hg <;> rw [hs] at hg <;> exact absurd hg (by decide)
      · have hmove : move st a b = Except.ok
            { st with locations := setStatus (setStatus st.locations a "FREE") b "OCCUPIED" } := by
          rcases hgood with hg | hg <;> simp [move, hla, hlb, hs, hg]
        refine ⟨_, hmove, ?_, ?_⟩
        · show lookupLoc (setStatus (setStatus st.locations a "FREE") b "OCCUPIED") a = _
          rw [lookup_setStatus_other _ _ _ _ hab, lookup_setStatus_self, hla]
          rfl
        · show lookupLoc (setStatus (setStatus st.locations a "FREE") b "OCCUPIED") b = _
          rw [lookup_setStatus_self,
            lookup_setStatus_other _ _ _ _ fun he => hab he.symm, hlb]
          rfl

theorem move_spec_witness :
    ∃ st2,
      move ⟨[mkLoc "A" "OCCUPIED", mkLoc "B" "FREE"], []⟩ "A" "B" = Except.ok st2 ∧
      lookupLoc st2.locations "A" = some (withStatus (mkLoc "A" "OCCUPIED") "FREE") ∧
      lookupLoc st2.locations "B" = some (withStatus (mkLoc "B" "FREE") "OCCUPIED") :=
  ((move_spec ⟨[mkLoc "A" "OCCUPIED", mkLoc "B" "FREE"], []⟩ "A" "B").2.1
    (mkLoc "A" "OCCUPIED") (mkLoc "B" "FREE") rfl rfl).2.2 rfl (Or.inl rfl)

/-- Claim C5: `occupy` succeeds exactly when the id exists (else a 404) and
its status is FREE or RESERVED (else a 409); on success the status becomes
OCCUPIED; on Conflict (status OCCUPIED, BLOCKED or MAINT) the carried state
is the input state, so the status is unchanged. -/
theorem occupy_spec (st : State) (lid : String) :
    (lookupLoc st.locations lid = none →
      occupy st lid = Except.error (ApiError.notFound "Location not found", st)) ∧
    (∀ l, lookupLoc st.locations lid = some l →
      ((l.status = "FREE" ∨ l.status = "RESERVED") →
        ∃ st2, occupy st lid = Except.ok st2 ∧
          lookupLoc st2.locations lid = some (withStatus l "OCCUPIED")) ∧
      (¬(l.status = "FREE" ∨ l.status = "RESERVED") →
        occupy st lid = Except.error (ApiError.conflict "Location not FREE/RESERVED", st))) := by
  constructor
  · intro h
    simp [occupy, h]
  · intro l hl
    constructor
    · intro hgood
      refine ⟨{ st with locations := setStatus st.locations lid "OCCUPIED" }, ?_, ?_⟩
      · rcases hgood with hg | hg <;> simp [occupy, hl, hg]
      · show lookupLoc (setStatus st.locations lid "OCCUPIED") lid = _
        rw [lookup_setStatus_self, hl]
        rfl
    · intro hbad
      simp [occupy, hl, hbad]

theorem occupy_spec_witness :
    ∃ st2, occupy ⟨[mkLoc "L5" "RESERVED"], []⟩ "L5" = Except.ok st2 ∧
      lookupLoc st2.locations "L5" = some (withStatus (mkLoc "L5" "RESERVED") "OCCUPIED") :=
  ((occupy_spec ⟨[mkLoc "L5" "RESERVED"], []⟩ "L5").2 (mkLoc "L5" "RESERVED") rfl).1
    (Or.inr rfl)

/-- Claim C6: `free` (the release operation) raises a 404 for a missing id,
and for an existing id succeeds unconditionally — whatever the current status,
including BLOCKED and MAINT — setting the status to FREE; it is idempotent:
applying it again to the resulting state returns that state unchanged. -/
theorem free_spec (st : State) (lid : String) :
    (lookupLoc st.locations lid = none →
      free st lid = Except.error (ApiError.notFound "Location not found", st)) ∧
    (∀ l, lookupLoc st.locations lid = some l →
      ∃ st2, free st lid = Except.ok st2 ∧
        lookupLoc st2.locations lid = some (withStatus l "FREE") ∧
        free st2 lid = Except.ok st2) := by
  constructor
  · intro h
    simp [free, h]
  · intro l hl
    refine ⟨{ st with locations := setStatus st.locations lid "FREE" }, ?_, ?_, ?_⟩
    · simp [free, hl]
    · show lookupLoc (setStatus st.locations lid "FREE") lid = _
      rw [lookup_setStatus_self, hl]
      rfl
    · have hl2 : lookupLoc (setStatus st.locations lid "FREE") lid =
          some (withStatus l "FREE") := by
        rw [lookup_setStatus_self, hl]
        rfl
      show free { st with locations := setStatus st.locations lid "FREE" } lid = _
      simp [free, hl2, setStatus_idem]

theorem free_spec_witness :
    ∃ st2, free ⟨[mkLoc "L6" "BLOCKED"], []⟩ "L6" = Except.ok st2 ∧
      lookupLoc st2.locations "L6" = some (withStatus (mkLoc "L6" "BLOCKED") "FREE") ∧
      free st2 "L6" = Except.ok st2 :=
  (free_spec ⟨[mkLoc "L6" "BLOCKED"], []⟩ "L6").2 (mkLoc "L6" "BLOCKED") rfl

theorem scanLocs_length_le (f : QueryFilters) (limit : Int) (rest : List Location) :
    ∀ acc : List Location, (acc.length : Int) < limit →
      ((scanLocs f limit acc rest).length : Int) ≤ limit := by
  induction rest with
  | nil =>
    intro acc h
    simpa [scanLocs] using le_of_lt h
  | cons l t ih =>
    intro acc h
    by_cases hm : matchesFilters f l = true
    · by_cases hb : limit ≤ (((acc ++ [l]).length : Nat) : Int)
      · simp only [scanLocs, hm, if_true, hb]
        simp only [List.length_append, List.length_singleton]
        push_cast
        omega
      · simp only [scanLocs, hm, if_true, hb, if_false]
        exact ih _ (not_le.mp hb)
    · simp only [scanLocs, hm, if_false]
      exact ih _ h

/-- Claim C7 counterexample: with `limit = 0` and one matching record, the
scan appends the record before testing `len(results) >= limit`, so one item
is returned and `count = 1`, exceeding the limit of 0. -/
theorem query_limit_counterexample :
    get_locations ⟨[mkLoc "L1" "FREE"], []⟩ noFilters 0 = (1, [mkLoc "L1" "FREE"]) ∧
    ¬((1 : Int) ≤ 0) :=
  ⟨rfl, by decide⟩

/-- Claim C7 (amended): for every catalogue, every filter combination and
every limit that is at least 1, the query returns at most `limit` items, and
the returned `count` is the number of items actually returned.  (For
`limit ≤ 0` the scan still returns the first matching item, exceeding the
limit, because the source appends before testing `len(results) >= limit`.) -/
theorem query_limit (st : State) (f : QueryFilters) (limit : Int) (h : 1 ≤ limit) :
    ((get_locations st f limit).2.length : Int) ≤ limit ∧
    (get_locations st f limit).1 = ((get_locations st f limit).2.length : Int) := by
  refine ⟨?_, rfl⟩
  refine scanLocs_length_le f limit st.locations [] ?_
  simpa using h

theorem query_limit_witness :
    ((get_locations ⟨[mkLoc "L1" "FREE", mkLoc "L2" "FREE"], []⟩ noFilters 1).2.length : Int) ≤ 1 ∧
    (get_locations ⟨[mkLoc "L1" "FREE", mkLoc "L2" "FREE"], []⟩ noFilters 1).1 =
      ((get_locations ⟨[mkLoc "L1" "FREE", mkLoc "L2" "FREE"], []⟩ noFilters 1).2.length : Int) :=
  query_limit ⟨[mkLoc "L1" "FREE", mkLoc "L2" "FREE"], []⟩ noFilters 1 (by decide)

theorem passExact_sound (f : Option String) (v s : String) (h : passExact f v = true)
    (hf : f = some s) (hs : s ≠ "") : v = s := by
  subst hf
  simpa [passExact, hs] using h

theorem passMin_sound (f : Option Int) (v n : Int) (h : passMin f v = true)
    (hf : f = some n) (hn : n ≠ 0) : n ≤ v := by
  subst hf
  simpa [passMin, hn] using h

theorem scanLocs_decompose (f : QueryFilters) (limit : Int) (rest : List Location) :
    ∀ acc : List Location, ∃ s, scanLocs f limit acc rest = acc ++ s ∧
      s.Sublist rest ∧ ∀ l ∈ s, matchesFilters f l = true := by
  induction rest with
  | nil =>
    intro acc
    exact ⟨[], by simp [scanLocs], List.Sublist.refl _, by simp⟩
  | cons l t ih =>
    intro acc
    by_cases hm : matchesFilters f l = true
    · by_cases hb : limit ≤ (((acc ++ [l]).length : Nat) : Int)
      · refine ⟨[l], ?_, ?_, ?_⟩
        · simp only [scanLocs]
          rw [if_pos hm, if_pos hb]
        · exact List.Sublist.cons₂ l (List.nil_sublist t)
        · intro x hx
          rw [List.mem_singleton] at hx
          subst hx
          exact hm
      · obtain ⟨s, hs, hsub, hall⟩ := ih (acc ++ [l])
        refine ⟨l :: s, ?_, List.Sublist.cons₂ l hsub, ?_⟩
        · simp only [scanLocs]
          rw [if_pos hm, if_neg hb, hs, List.append_assoc, List.singleton_append]
        · intro x hx
          rcases List.mem_cons.mp hx with rfl | hx2
          · exact hm
          · exact hall x hx2
    · obtain ⟨s, hs, hsub, hall⟩ := ih acc
      refine ⟨s, ?_, List.Sublist.cons _ hsub, hall⟩
      simp only [scanLocs]
      rw [if_neg hm, hs]

/-- Claim C8 counterexample: the filter value group_id = "" (explicitly
provided as the empty string) is skipped by the Python truthiness test
`if group_id and ...`, so a location whose group_id is "FLEX-02-OVR-01" is
returned even though it differs from the provided filter value. -/
theorem query_filters_counterexample :
    (get_locations ⟨[{ mkLoc "S1" "FREE" with group_id := "FLEX-02-OVR-01" }], []⟩
        { noFilters with group_id := some "" } 100).2 =
      [{ mkLoc "S1" "FREE" with group_id := "FLEX-02-OVR-01" }] ∧
    ({ mkLoc "S1" "FREE" with group_id := "FLEX-02-OVR-01" } : Location).group_id ≠ "" := by
  refine ⟨rfl, ?_⟩
  simp [mkLoc]

/-- Claim C8 (amended): the returned items are a subsequence of the catalogue
in insertion (load) order, and every returned location satisfies every
effective filter conjunctively: exact equality for every provided non-empty
string filter, and the minimum threshold for every provided nonzero numeric
filter.  (A provided empty-string or zero filter value is Python-falsy and is
not applied — the guard `if f and ...` skips it.) -/
theorem query_filters_sound (st : State) (f : QueryFilters) (limit : Int) :
    (get_locations st f limit).2.Sublist st.locations ∧
    ∀ l ∈ (get_locations st f limit).2,
      (∀ s, f.status = some s → s ≠ "" → l.status = s) ∧
      (∀ s, f.area_type = some s → s ≠ "" → l.area_type = s) ∧
      (∀ s, f.area_id = some s → s ≠ "" → l.area_id = s) ∧
      (∀ s, f.group_id = some s → s ≠ "" → l.group_id = s) ∧
      (∀ n, f.min_l = some n → n ≠ 0 → n ≤ l.length_mm) ∧
      (∀ n, f.min_w = some n → n ≠ 0 → n ≤ l.width_mm) ∧
      (∀ n, f.min_h = some n → n ≠ 0 → n ≤ l.height_mm) ∧
      (∀ n, f.min_weight = some n → n ≠ 0 → n ≤ l.max_weight_kg) := by
  obtain ⟨s, hs, hsub, hall⟩ := scanLocs_decompose f limit st.locations []
  have hitems : (get_locations st f limit).2 = s := by
    show scanLocs f limit [] st.locations = s
    simpa using hs
  rw [hitems]
  refine ⟨hsub, ?_⟩
  intro l hl
  have hm := hall l hl
  simp only [matchesFilters, Bool.and_eq_true] at hm
  obtain ⟨⟨⟨⟨⟨⟨⟨h1, h2⟩, h3⟩, h4⟩, h5⟩, h6⟩, h7⟩, h8⟩ := hm
  exact ⟨fun v hv hne => passExact_sound _ _ _ h1 hv hne,
    fun v hv hne => passExact_sound _ _ _ h2 hv hne,
    fun v hv hne => passExact_sound _ _ _ h3 hv hne,
    fun v hv hne => passExact_sound _ _ _ h4 hv hne,
    fun n hn hne => passMin_sound _ _ _ h5 hn hne,
    fun n hn hne => passMin_sound _ _ _ h6 hn hne,
    fun n hn hne => passMin_sound _ _ _ h7 hn hne,
    fun n hn hne => passMin_sound _ _ _ h8 hn hne⟩

theorem query_filters_sound_witness :
    (mkLoc "L1" "FREE").status = "FREE" :=
  ((query_filters_sound ⟨[mkLoc "L1" "FREE"], []⟩
      { noFilters with status := some "FREE" } 100).2
    (mkLoc "L1" "FREE") (by decide)).1 "FREE" rfl (by decide)

theorem reserveCheck_error_state (st : State) (ids : List String) (e : ApiError)
    (st2 : State) (h : reserveCheck st ids = Except.error (e, st2)) : st2 = st := by
  induction ids with
  | nil => cases h
  | cons k t ih =>
    simp only [reserveCheck] at h
    split at h
    · exact (congrArg Prod.snd (Except.error.inj h)).symm
    · split at h
      · exact (congrArg Prod.snd (Except.error.inj h)).symm
      · exact ih h

theorem reserve_shape (st : State) (res : Reservation) :
    (applyOp st (Op.reserveOp res)).locations = st.locations ∨
    (applyOp st (Op.reserveOp res)).locations =
      res.location_ids.foldl (fun acc lid => setStatus acc lid "RESERVED") st.locations := by
  simp only [applyOp]
  cases hr : reserve st res with
  | ok st2 =>
    right
    unfold reserve at hr
    split at hr
    · cases hr
    · rw [← Except.ok.inj hr]
  | error p =>
    obtain ⟨e, st2⟩ := p
    left
    show st2.locations = st.locations
    unfold reserve at hr
    split at hr
    · rename_i e2 he2
      rw [Except.error.inj hr] at he2
      rw [reserveCheck_error_state st res.location_ids e st2 he2]
    · cases hr

theorem occupy_shape (st : State) (lid : String) :
    (applyOp st (Op.occupyOp lid)).locations = st.locations ∨
    (applyOp st (Op.occupyOp lid)).locations = setStatus st.locations lid "OCCUPIED" := by
  simp only [applyOp]
  cases ho : occupy st lid with
  | ok st2 =>
    right
    unfold occupy at ho
    split at ho
    · cases ho
    · split at ho
      · cases ho
      · rw [← Except.ok.inj ho]
  | error p =>
    obtain ⟨e, st2⟩ := p
    left
    show st2.locations = st.locations
    unfold occupy at ho
    split at ho
    · rw [show st2 = st from (congrArg Prod.snd (Except.error.inj ho)).symm]
    · split at ho
      · rw [show st2 = st from (congrArg Prod.snd (Except.error.inj ho)).symm]
      · cases ho

theorem free_shape (st : State) (lid : String) :
    (applyOp st (Op.freeOp lid)).locations = st.locations ∨
    (applyOp st (Op.freeOp lid)).locations = setStatus st.locations lid "FREE" := by
  simp only [applyOp]
  cases hf : free st lid with
  | ok st2 =>
    right
    unfold free at hf
    split at hf
    · cases hf
    · rw [← Except.ok.inj hf]
  | error p =>
    obtain ⟨e, st2⟩ := p
    left
    show st2.locations = st.locations
    unfold free at hf
    split at hf
    · rw [show st2 = st from (congrArg Prod.snd (Except.error.inj hf)).symm]
    · cases hf

theorem move_shape (st : State) (a b : String) :
    (applyOp st (Op.moveOp a b)).locations = st.locations ∨
    (applyOp st (Op.moveOp a b)).locations =
      setStatus (setStatus st.locations a "FREE") b "OCCUPIED" := by
  simp only [applyOp]
  cases hm : move st a b with
  | ok st2 =>
    right
    unfold move at hm
    split at hm
    · cases hm
    · cases hm
    · split at hm
      · cases hm
      · split at hm
        · cases hm
        · rw [← Except.ok.inj hm]
  | error p =>
    obtain ⟨e, st2⟩ := p
    left
    show st2.locations = st.locations
    rw [move_error_state st a b e st2 hm]

theorem statusWriteOnly_refl (c : List Location) : StatusWriteOnly c c :=
  fun _ => Or.inl rfl

theorem statusWriteOnly_setStatus (c c2 : List Location) (k s : String)
    (hs : s ∈ writableStatuses) (h : StatusWriteOnly c c2) :
    StatusWriteOnly c (setStatus c2 k s) := by
  intro lid
  by_cases hk : lid = k
  · subst hk
    rw [lookup_setStatus_self]
    rcases h lid with h2 | ⟨t, _, h2⟩
    · exact Or.inr ⟨s, hs, by rw [h2]⟩
    · refine Or.inr ⟨s, hs, ?_⟩
      rw [h2]
      cases lookupLoc c lid <;> simp [withStatus_overwrite]
  · rw [lookup_setStatus_other _ _ _ _ hk]
    exact h lid

theorem statusWriteOnly_foldl (ids : List String) (c c2 : List Location)
    (h : StatusWriteOnly c c2) :
    StatusWriteOnly c (ids.foldl (fun acc lid => setStatus acc lid "RESERVED") c2) := by
  induction ids generalizing c2 with
  | nil => exact h
  | cons k t ih =>
    simp only [List.foldl_cons]
    exact ih _ (statusWriteOnly_setStatus c c2 k "RESERVED" (by simp [writableStatuses]) h)

theorem mem_setStatus (c : List Location) (k s : String) (x : Location)
    (hx : x ∈ setStatus c k s) : ∃ y ∈ c, x = y ∨ x = withStatus y s := by
  simp only [setStatus, List.mem_map] at hx
  obtain ⟨y, hy, hxy⟩ := hx
  by_cases h : y.id = k
  · exact ⟨y, hy, Or.inr (by rw [← hxy, if_pos h])⟩
  · exact ⟨y, hy, Or.inl (by rw [← hxy, if_neg h])⟩

theorem statusOk_setStatus (c : List Location) (k s : String)
    (hs : s ∈ allStatuses) (h : ∀ l ∈ c, l.status ∈ allStatuses) :
    ∀ l ∈ setStatus c k s, l.status ∈ allStatuses := by
  intro x hx
  obtain ⟨y, hy, hc⟩ := mem_setStatus c k s x hx
  rcases hc with h2 | h2
  · rw [h2]
    exact h y hy
  · rw [h2, withStatus_status]
    exact hs

theorem statusOk_foldl (ids : List String) (c : List Location)
    (h : ∀ l ∈ c, l.status ∈ allStatuses) :
    ∀ l ∈ ids.foldl (fun acc lid => setStatus acc lid "RESERVED") c,
      l.status ∈ allStatuses := by
  induction ids generalizing c with
  | nil => exact h
  | cons k t ih =>
    simp only [List.foldl_cons]
    exact ih _ (statusOk_setStatus c k "RESERVED" (by simp [allStatuses]) h)

theorem applyOp_statusWriteOnly (st : State) (op : Op) :
    StatusWriteOnly st.locations (applyOp st op).locations := by
  cases op with
  | reserveOp res =>
    rcases reserve_shape st res with h | h <;> rw [h]
    · exact statusWriteOnly_refl _
    · exact statusWriteOnly_foldl _ _ _ (statusWriteOnly_refl _)
  | occupyOp lid =>
    rcases occupy_shape st lid with h | h <;> rw [h]
    · exact statusWriteOnly_refl _
    · exact statusWriteOnly_setStatus _ _ _ _ (by simp [writableStatuses])
        (statusWriteOnly_refl _)
  | freeOp lid =>
    rcases free_shape st lid with h | h <;> rw [h]
    · exact statusWriteOnly_refl _
    · exact statusWriteOnly_setStatus _ _ _ _ (by simp [writableStatuses])
        (statusWriteOnly_refl _)
  | moveOp a b =>
    rcases move_shape st a b with h | h <;> rw [h]
    · exact statusWriteOnly_refl _
    · exact statusWriteOnly_setStatus _ _ _ _ (by simp [writableStatuses])
        (statusWriteOnly_setStatus _ _ _ _ (by simp [writableStatuses])
          (statusWriteOnly_refl _))
  | queryOp f limit => exact statusWriteOnly_refl _

/-- Claim C9: no endpoint ever writes BLOCKED or MAINT.  For every state and
every request: (1) if a location's status changes, the new status is FREE,
OCCUPIED or RESERVED — BLOCKED and MAINT can only come from the initial
dataset; and (2) if every location's status is one of the five defined enum
values before the request, that remains true after it. -/
theorem no_op_reaches_blocked_or_maint (st : State) (op : Op) :
    (∀ lid l l2, lookupLoc st.locations lid = some l →
      lookupLoc (applyOp st op).locations lid = some l2 →
      l2.status ≠ l.status → l2.status ∈ writableStatuses) ∧
    ((∀ l ∈ st.locations, l.status ∈ allStatuses) →
      ∀ l ∈ (applyOp st op).locations, l.status ∈ allStatuses) := by
  constructor
  · intro lid l l2 hl hl2 hne
    rcases applyOp_statusWriteOnly st op lid with he | ⟨t, ht, he⟩
    · rw [hl2, hl] at he
      exact absurd (congrArg Location.status (Option.some.inj he)) hne
    · rw [hl2, hl] at he
      rw [Option.some.inj he, withStatus_status]
      exact ht
  · intro hok
    cases op with
    | reserveOp res =>
      rcases reserve_shape st res with h | h <;> rw [h]
      · exact hok
      · exact statusOk_foldl _ _ hok
    | occupyOp lid =>
      rcases occupy_shape st lid with h | h <;> rw [h]
      · exact hok
      · exact statusOk_setStatus _ _ _ (by simp [allStatuses]) hok
    | freeOp lid =>
      rcases free_shape st lid with h | h <;> rw [h]
      · exact hok
      · exact statusOk_setStatus _ _ _ (by simp [allStatuses]) hok
    | moveOp a b =>
      rcases move_shape st a b with h | h <;> rw [h]
      · exact hok
      · exact statusOk_setStatus _ _ _ (by simp [allStatuses])
          (statusOk_setStatus _ _ _ (by simp [allStatuses]) hok)
    | queryOp f limit => exact hok

theorem no_op_reaches_blocked_or_maint_witness :
    (withStatus (mkLoc "W" "OCCUPIED") "FREE").status ∈ writableStatuses :=
  (no_op_reaches_blocked_or_maint ⟨[mkLoc "W" "OCCUPIED"], []⟩ (Op.freeOp "W")).1
    "W" (mkLoc "W" "OCCUPIED") (withStatus (mkLoc "W" "OCCUPIED") "FREE")
    rfl (by decide) (by decide)

/-- Claim C10: `move(A, A)` with identical source and destination always fails
with a 409 Conflict for an existing id A — A cannot be OCCUPIED and
FREE/RESERVED at once — and the carried state is the input state, so A and
the rest of the catalogue are unchanged. -/
theorem move_self_conflict (st : State) (a : String) (l : Location)
    (h : lookupLoc st.locations a = some l) :
    ∃ d, move st a a = Except.error (ApiError.conflict d, st) := by
  by_cases hs : l.status = "OCCUPIED"
  · refine ⟨"To location not FREE/RESERVED", ?_⟩
    have hbad : ¬(l.status = "FREE" ∨ l.status = "RESERVED") := by
      rw [hs]
      decide
    simp [move, h, hs, hbad]
  · exact ⟨"From location not OCCUPIED", by simp [move, h, hs]⟩

theorem move_self_conflict_witness :
    ∃ d, move ⟨[mkLoc "M" "OCCUPIED"], []⟩ "M" "M" =
      Except.error (ApiError.conflict d, ⟨[mkLoc "M" "OCCUPIED"], []⟩) :=
  move_self_conflict ⟨[mkLoc "M" "OCCUPIED"], []⟩ "M" (mkLoc "M" "OCCUPIED") rfl
